import Mathlib

/-!
# Verification of the jupyterlab-rise extension (packages/lab/src)

A shallow embedding of the notebook-metadata manipulation performed by the
extension's command handlers (`src/packages/lab/src/index.ts`) and by the
theme-picker widget (`src/packages/lab/src/ThemePicker.tsx`).

JSON metadata values are modelled by an inductive `Json` type whose objects
are association lists; the host's notebook/cell models are records holding
such metadata maps.  Each handler is embedded as a pure function from its
inputs (command arguments, current widget) to the updated state together with
a trace of observable events (metadata reads/writes, `context.save()`,
dialogs, DOM operations), so that both the functional effect and the order of
side effects can be stated.
-/

/-- JSON values, as stored in notebook / cell metadata.  Objects are
association lists of key/value pairs (JS objects have no duplicate keys and
preserve insertion order). -/
inductive Json where
  | null
  | bool (b : Bool)
  | num (n : Int)
  | str (s : String)
  | arr (elems : List Json)
  | obj (entries : List (String × Json))

/-- Structural equality test on JSON values (decidable equality for the
nested inductive is built by hand, `deriving` does not support it). -/
def Json.beq : Json → Json → Bool
  | .null, .null => true
  | .bool a, .bool b => a == b
  | .num a, .num b => a == b
  | .str a, .str b => a == b
  | .arr xs, .arr ys => goList xs ys
  | .obj xs, .obj ys => goObj xs ys
  | _, _ => false
where
  goList : List Json → List Json → Bool
    | [], [] => true
    | x :: xs, y :: ys => Json.beq x y && goList xs ys
    | _, _ => false
  goObj : List (String × Json) → List (String × Json) → Bool
    | [], [] => true
    | (k, v) :: xs, (l, w) :: ys => k == l && Json.beq v w && goObj xs ys
    | _, _ => false

theorem Json.beq_refl : (a : Json) → Json.beq a a = true
  | .null => rfl
  | .bool b => by simp [Json.beq]
  | .num n => by simp [Json.beq]
  | .str s => by simp [Json.beq]
  | .arr xs => by simp [Json.beq]; exact goList xs
  | .obj xs => by simp [Json.beq]; exact goObj xs
where
  goList : (xs : List Json) → Json.beq.goList xs xs = true
    | [] => rfl
    | x :: xs => by simp [Json.beq.goList]; exact ⟨Json.beq_refl x, goList xs⟩
  goObj : (xs : List (String × Json)) → Json.beq.goObj xs xs = true
    | [] => rfl
    | (k, v) :: xs => by simp [Json.beq.goObj]; exact ⟨Json.beq_refl v, goObj xs⟩

theorem Json.eq_of_beq : (a b : Json) → Json.beq a b = true → a = b
  | .null, .null, _ => rfl
  | .bool a, .bool b, h => by simp [Json.beq] at h; rw [h]
  | .num a, .num b, h => by simp [Json.beq] at h; rw [h]
  | .str a, .str b, h => by simp [Json.beq] at h; rw [h]
  | .arr xs, .arr ys, h => by
      simp only [Json.beq] at h; rw [goList xs ys h]
  | .obj xs, .obj ys, h => by
      simp only [Json.beq] at h; rw [goObj xs ys h]
  | .null, .bool _, h => by simp [Json.beq] at h
  | .null, .num _, h => by simp [Json.beq] at h
  | .null, .str _, h => by simp [Json.beq] at h
  | .null, .arr _, h => by simp [Json.beq] at h
  | .null, .obj _, h => by simp [Json.beq] at h
  | .bool _, .null, h => by simp [Json.beq] at h
  | .bool _, .num _, h => by simp [Json.beq] at h
  | .bool _, .str _, h => by simp [Json.beq] at h
  | .bool _, .arr _, h => by simp [Json.beq] at h
  | .bool _, .obj _, h => by simp [Json.beq] at h
  | .num _, .null, h => by simp [Json.beq] at h
  | .num _, .bool _, h => by simp [Json.beq] at h
  | .num _, .str _, h => by simp [Json.beq] at h
  | .num _, .arr _, h => by simp [Json.beq] at h
  | .num _, .obj _, h => by simp [Json.beq] at h
  | .str _, .null, h => by simp [Json.beq] at h
  | .str _, .bool _, h => by simp [Json.beq] at h
  | .str _, .num _, h => by simp [Json.beq] at h
  | .str _, .arr _, h => by simp [Json.beq] at h
  | .str _, .obj _, h => by simp [Json.beq] at h
  | .arr _, .null, h => by simp [Json.beq] at h
  | .arr _, .bool _, h => by simp [Json.beq] at h
  | .arr _, .num _, h => by simp [Json.beq] at h
  | .arr _, .str _, h => by simp [Json.beq] at h
  | .arr _, .obj _, h => by simp [Json.beq] at h
  | .obj _, .null, h => by simp [Json.beq] at h
  | .obj _, .bool _, h => by simp [Json.beq] at h
  | .obj _, .num _, h => by simp [Json.beq] at h
  | .obj _, .str _, h => by simp [Json.beq] at h
  | .obj _, .arr _, h => by simp [Json.beq] at h
where
  goList : (xs ys : List Json) → Json.beq.goList xs ys = true → xs = ys
    | [], [], _ => rfl
    | x :: xs, y :: ys, h => by
        simp [Json.beq.goList] at h
        rw [Json.eq_of_beq x y h.1, goList xs ys h.2]
    | [], _ :: _, h => by simp [Json.beq.goList] at h
    | _ :: _, [], h => by simp [Json.beq.goList] at h
  goObj : (xs ys : List (String × Json)) → Json.beq.goObj xs ys = true → xs = ys
    | [], [], _ => rfl
    | (k, v) :: xs, (l, w) :: ys, h => by
        simp [Json.beq.goObj] at h
        rw [h.1.1, Json.eq_of_beq v w h.1.2, goObj xs ys h.2]
    | [], _ :: _, h => by simp [Json.beq.goObj] at h
    | _ :: _, [], h => by simp [Json.beq.goObj] at h

instance : DecidableEq Json := fun a b =>
  if h : Json.beq a b = true then isTrue (Json.eq_of_beq a b h)
  else isFalse (fun hh => h (hh ▸ Json.beq_refl a))

/-- JavaScript truthiness of a JSON value (`if (v)`): `null`, `false`, `0`
and `""` are falsy; arrays and objects are always truthy. -/
def Json.truthy : Json → Bool
  | .null => false
  | .bool b => b
  | .num n => n != 0
  | .str s => s ≠ ""
  | .arr _ => true
  | .obj _ => true

/-- Truthiness of a possibly-undefined value (`undefined` is falsy). -/
def jsTruthy : Option Json → Bool
  | none => false
  | some v => v.truthy

/-- Property lookup on a JS object: the binding of the key, if any. -/
def getKey : List (String × Json) → String → Option Json
  | [], _ => none
  | (k', v) :: rest, k => if k' = k then some v else getKey rest k

/-- Property assignment `o[k] = v` (and the override in `{ ...o, k: v }`):
an existing key keeps its position, a new key is appended. -/
def setKey : List (String × Json) → String → Json → List (String × Json)
  | [], k, v => [(k, v)]
  | (k', v') :: rest, k, v =>
    if k' = k then (k, v) :: rest else (k', v') :: setKey rest k v

/-- Property deletion `delete o[k]`. -/
def eraseKey : List (String × Json) → String → List (String × Json)
  | [], _ => []
  | (k', v) :: rest, k =>
    if k' = k then eraseKey rest k else (k', v) :: eraseKey rest k

@[simp] theorem getKey_setKey_same (kvs : List (String × Json)) (k : String) (v : Json) :
    getKey (setKey kvs k v) k = some v := by
  induction kvs with
  | nil => simp [getKey, setKey]
  | cons e rest ih =>
    by_cases h : e.1 = k <;> simp [getKey, setKey, h, ih]

theorem getKey_setKey_ne (kvs : List (String × Json)) (k k' : String) (v : Json)
    (h : k' ≠ k) : getKey (setKey kvs k v) k' = getKey kvs k' := by
  induction kvs with
  | nil => simp [getKey, setKey, Ne.symm h]
  | cons e rest ih =>
    by_cases he : e.1 = k
    · subst he
      simp [getKey, setKey, Ne.symm h]
    · simp [getKey, setKey, he, ih]

@[simp] theorem getKey_eraseKey_same (kvs : List (String × Json)) (k : String) :
    getKey (eraseKey kvs k) k = none := by
  induction kvs with
  | nil => simp [getKey, eraseKey]
  | cons e rest ih =>
    by_cases h : e.1 = k <;> simp [getKey, eraseKey, h, ih]

theorem getKey_eraseKey_ne (kvs : List (String × Json)) (k k' : String)
    (h : k' ≠ k) : getKey (eraseKey kvs k) k' = getKey kvs k' := by
  induction kvs with
  | nil => simp [eraseKey]
  | cons e rest ih =>
    by_cases he : e.1 = k
    · subst he
      simp [getKey, eraseKey, Ne.symm h, ih]
    · simp [getKey, eraseKey, he, ih]

theorem eraseKey_eraseKey (kvs : List (String × Json)) (k : String) :
    eraseKey (eraseKey kvs k) k = eraseKey kvs k := by
  induction kvs with
  | nil => simp [eraseKey]
  | cons e rest ih =>
    by_cases h : e.1 = k <;> simp [eraseKey, h, ih]

theorem setKey_setKey_same (kvs : List (String × Json)) (k : String) (v w : Json) :
    setKey (setKey kvs k v) k w = setKey kvs k w := by
  induction kvs with
  | nil => simp [setKey]
  | cons e rest ih =>
    by_cases h : e.1 = k <;> simp [setKey, h, ih]

/-- Object spread `{ ...v }`: objects give their entries, strings their
characters under numeric keys, arrays their elements under numeric keys;
other primitives have no own enumerable properties. -/
def jsSpread : Json → List (String × Json)
  | .obj kvs => kvs
  | .str s => (s.toList.enum.map fun p => (toString p.1, Json.str (String.singleton p.2)))
  | .arr xs => (xs.enum.map fun p => (toString p.1, p.2))
  | _ => []

/-- A notebook cell model (`ICellModel`): its metadata map. -/
structure CellModel where
  metadata : List (String × Json)
deriving DecidableEq

def CellModel.getMetadata (c : CellModel) (k : String) : Option Json :=
  getKey c.metadata k

def CellModel.setMetadata (c : CellModel) (k : String) (v : Json) : CellModel :=
  ⟨setKey c.metadata k v⟩

def CellModel.deleteMetadata (c : CellModel) (k : String) : CellModel :=
  ⟨eraseKey c.metadata k⟩

/-- A notebook document model (`INotebookModel`): its notebook-level
metadata map. -/
structure NotebookModel where
  metadata : List (String × Json)
deriving DecidableEq

def NotebookModel.getMetadata (m : NotebookModel) (k : String) : Option Json :=
  getKey m.metadata k

def NotebookModel.setMetadata (m : NotebookModel) (k : String) (v : Json) : NotebookModel :=
  ⟨setKey m.metadata k v⟩

/-- A notebook panel as the handlers see it: an optional document model and
an optional active cell model. -/
structure NotebookPanel where
  model : Option NotebookModel
  activeCell : Option CellModel
deriving DecidableEq

/-- Observable side effects of a handler, in execution order. -/
inductive Event where
  | getNotebookMetadata (key : String)
  | setNotebookMetadata (key : String) (value : Json)
  | getCellMetadata (key : String)
  | setCellMetadata (key : String) (value : Json)
  | deleteCellMetadata (key : String)
  | contextSave
  | showDialog (title : String)
  | setStatusText
  | reassignIframeSrc (src : String)
  | rerenderWidget
  | addBodyClass (name : String)
  | execCommand (id : String) (args : List (String × Json))
  | insertToolbarButton (name : String)
  | openWindow
  | requestFullscreen
  | exitFullscreen
  | focusIframe
  | thrown
deriving DecidableEq

/-- Outcome of `(model.getMetadata('rise') as any) || {}` followed by the
strict-mode property assignment `riseMetadata['theme'] = themeName`. -/
inductive RiseAssign where
  | intoObj (kvs : List (String × Json))
  | intoArr (elems : List Json)
  | throws

/-- Classify the stored `rise` value for the assignment above: an absent or
falsy value is replaced by `{}`, which then receives the `theme` property; a
plain object receives it likewise; an array also accepts the assignment
(arrays are objects in JS), but the named property it gains is not part of
the array's JSON form, so the value stored under `rise` stays the array
itself; a truthy primitive (non-empty string, non-zero number, `true`) makes
the assignment throw a `TypeError`. -/
def classifyRiseAssign : Option Json → RiseAssign
  | none => .intoObj []
  | some (.obj kvs) => .intoObj kvs
  | some (.arr xs) => .intoArr xs
  | some v => if v.truthy then .throws else .intoObj []

/-- The `RISE:set-theme` command handler (`index.ts`, `CommandIDs.riseSetTheme`).
`themeArg` is `args['theme']`, `current` the notebook tracker's current
widget.  Returns the updated widget together with the trace of side effects.
The handler mutates the `rise` record in place, stores it back, shows a
"Theme Updated" dialog asking the user to save, and adds the `rise-enabled`
body class; it never calls `context.save()`.  When the stored `rise` value
is an array, the in-place mutation succeeds and the array itself is stored
back under `rise`. -/
def riseSetThemeExecute (themeArg : Option Json) (current : Option NotebookPanel) :
    Option NotebookPanel × List Event :=
  match current with
  | none => (none, [Event.addBodyClass "rise-enabled"])
  | some panel =>
    if jsTruthy themeArg then
      match panel.model with
      | none => (some panel, [Event.addBodyClass "rise-enabled"])
      | some model =>
        match classifyRiseAssign (model.getMetadata "rise") with
        | .throws => (some panel, [Event.getNotebookMetadata "rise", Event.thrown])
        | .intoArr xs =>
          (some { panel with model := some (model.setMetadata "rise" (Json.arr xs)) },
           [Event.getNotebookMetadata "rise",
            Event.setNotebookMetadata "rise" (Json.arr xs),
            Event.showDialog "Theme Updated",
            Event.addBodyClass "rise-enabled"])
        | .intoObj kvs =>
          let theme := themeArg.getD Json.null
          let newValue := Json.obj (setKey kvs "theme" theme)
          (some { panel with model := some (model.setMetadata "rise" newValue) },
           [Event.getNotebookMetadata "rise",
            Event.setNotebookMetadata "rise" newValue,
            Event.showDialog "Theme Updated",
            Event.addBodyClass "rise-enabled"])
    else (some panel, [Event.addBodyClass "rise-enabled"])

/-- `pat` starts the character list `l`. -/
def startsWithChars : List Char → List Char → Bool
  | [], _ => true
  | _ :: _, [] => false
  | a :: as, b :: bs => a == b && startsWithChars as bs

/-- `pat` occurs somewhere in the character list `l`. -/
def hasSubChars (pat : List Char) : List Char → Bool
  | [] => startsWithChars pat []
  | c :: rest => startsWithChars pat (c :: rest) || hasSubChars pat rest

/-- JS `s.includes(pat)`. -/
def strContains (s pat : String) : Bool := hasSubChars pat.toList s.toList

/-- `ThemePickerDialog._refreshRisePreview`: reassign the `src` of every
iframe in the document whose `src` contains `"reveal"`. -/
def refreshRisePreview (iframeSrcs : List String) : List Event :=
  iframeSrcs.filterMap fun s =>
    if strContains s "reveal" then some (Event.reassignIframeSrc s) else none

/-- `ThemePickerDialog.updateMetadata` (`ThemePicker.tsx`): read the current
`rise` metadata, write the merged record `{ ...riseMetadata, theme }` back to
the model, update the status element if present, save the context, refresh
the reveal iframes, and re-render the widget. -/
def ThemePickerDialog.updateMetadata (themeName : String) (current : Option NotebookPanel)
    (iframeSrcs : List String) (statusElPresent : Bool) :
    Option NotebookPanel × List Event :=
  match current with
  | none => (none, [])
  | some panel =>
    match panel.model with
    | none => (some panel, [])
    | some model =>
      let riseMetadata := match model.getMetadata "rise" with
        | some v => jsSpread v
        | none => []
      let newMetadata := Json.obj (setKey riseMetadata "theme" (Json.str themeName))
      (some { panel with model := some (model.setMetadata "rise" newMetadata) },
       [Event.getNotebookMetadata "rise", Event.setNotebookMetadata "rise" newMetadata] ++
       (if statusElPresent then [Event.setStatusText] else []) ++
       [Event.contextSave] ++ refreshRisePreview iframeSrcs ++ [Event.rerenderWidget])

/-- The `RISE:theme-picker` command handler (`CommandIDs.openThemePicker`):
no-op without a current notebook, otherwise shows the picker dialog.
Metadata is only touched by the dialog's own click handler,
`ThemePickerDialog.updateMetadata`. -/
def openThemePickerExecute (current : Option NotebookPanel) : List Event :=
  match current with
  | none => []
  | some _ => [Event.showDialog "Choose a Slideshow Theme"]

/-- The read `currentValue['slide_type']` where `currentValue` is
`cellModel.getMetadata('slideshow') ?? {}` (indexing a non-object yields
`undefined`). -/
def slideTypeOf (cell : CellModel) : Option Json :=
  match cell.getMetadata "slideshow" with
  | some (.obj kvs) => getKey kvs "slide_type"
  | _ => none

/-- The spread base `{ ...currentValue }` where `currentValue` is
`cellModel.getMetadata('slideshow') ?? {}`. -/
def slideBase (cell : CellModel) : List (String × Json) :=
  match cell.getMetadata "slideshow" with
  | some v => jsSpread v
  | none => []

/-- The `newValue` record built by the `RISE:set-slide-type` handler: the
copied `slideshow` record with `slide_type` set to a truthy argument or
deleted for a falsy one. -/
def newSlideValue (typeArg : Option Json) (cell : CellModel) : List (String × Json) :=
  if jsTruthy typeArg
  then setKey (slideBase cell) "slide_type" (typeArg.getD Json.null)
  else eraseKey (slideBase cell) "slide_type"

/-- The `RISE:set-slide-type` command handler (`CommandIDs.riseSetSlideType`).
`typeArg` is `args['type']`.  When the argument differs from the cell's
current `slide_type`, the handler copies the `slideshow` record, sets or
deletes `slide_type` according to the argument's truthiness, and stores the
copy back — deleting the `slideshow` key entirely when the copy has no keys
left. -/
def riseSetSlideTypeExecute (typeArg : Option Json) (current : Option NotebookPanel) :
    Option NotebookPanel × List Event :=
  match current with
  | none => (none, [])
  | some panel =>
    match panel.activeCell with
    | none => (some panel, [])
    | some cell =>
      if typeArg = slideTypeOf cell then
        (some panel, [Event.getCellMetadata "slideshow"])
      else if 0 < (newSlideValue typeArg cell).length then
        (some { panel with
                 activeCell :=
                   some (cell.setMetadata "slideshow" (Json.obj (newSlideValue typeArg cell))) },
         [Event.getCellMetadata "slideshow",
          Event.setCellMetadata "slideshow" (Json.obj (newSlideValue typeArg cell))])
      else
        (some { panel with activeCell := some (cell.deleteMetadata "slideshow") },
         [Event.getCellMetadata "slideshow", Event.deleteCellMetadata "slideshow"])

/-- JS `ToNumber`/`ToInt32` coercion as performed by `x |= y`; `NaN`
(non-numeric strings, objects) collapses to 0.  Exact on `null`, booleans
and integer values — which is all the autolaunch decision is stated over —
but approximate on corners such as fractional numeric strings (JS truncates
`"1.5"` to 1) or singleton arrays (JS coerces `["5"]` to 5). -/
def Json.toNumber : Json → Int
  | .null => 0
  | .bool b => if b then 1 else 0
  | .num n => n
  | .str s => (s.trim.toInt?).getD 0
  | .arr _ => 0
  | .obj _ => 0

/-- `(panel.content.model?.getMetadata('rise') ?? {})['autolaunch'] ?? false`:
the `autolaunch` field of the notebook's `rise` metadata, `false` when the
model, the record or the field is missing. -/
def autolaunchFromMetadata (model : Option NotebookModel) : Json :=
  match model with
  | none => Json.bool false
  | some m =>
    match m.getMetadata "rise" with
    | some (.obj kvs) => (getKey kvs "autolaunch").getD (Json.bool false)
    | _ => Json.bool false

/-- The auto-launch decision of the `notebookTracker.widgetAdded` handler:
the metadata flag, bitwise-or-ed (`|=`) with the settings registry's
`autolaunch` composite value when settings are loaded, then tested for
truthiness. -/
def shouldAutolaunch (model : Option NotebookModel) (settings : Option Json) : Bool :=
  let a := autolaunchFromMetadata model
  match settings with
  | none => a.truthy
  | some c => Int.lor a.toNumber c.toNumber != 0

/-- The `notebookTracker.widgetAdded` handler: insert the preview toolbar
button; outside the stand-alone `Rise` application, auto-execute the
`RISE:preview` command with `fullscreen: true` when auto-launch is enabled;
finally insert the theme-picker toolbar button. -/
def widgetAddedHandler (appName : String) (model : Option NotebookModel)
    (settings : Option Json) : List Event :=
  [Event.insertToolbarButton "RISE-button"] ++
  (if appName ≠ "Rise" then
    (if shouldAutolaunch model settings then
      [Event.execCommand "RISE:preview" [("fullscreen", Json.bool true)]]
    else [])
  else []) ++
  [Event.insertToolbarButton "RISE-theme-button"]

/-- The `RISE:slideshow` command handler (`CommandIDs.openRise`): save, then
open the rise URL in a new browser tab. -/
def openRiseExecute (current : Option NotebookPanel) : List Event :=
  match current with
  | none => []
  | some _ => [Event.contextSave, Event.openWindow]

/-- The `RISE:preview` command handler (`CommandIDs.risePreview`): save, open
the preview via `docmanager:open`, and when called with `fullscreen: true`
ask for full-screen confirmation. -/
def risePreviewExecute (current : Option NotebookPanel) (fullscreenArg : Option Json) :
    List Event :=
  match current with
  | none => []
  | some _ =>
    [Event.contextSave, Event.execCommand "docmanager:open" []] ++
    (match fullscreenArg with
     | some (.bool true) => [Event.showDialog "Switch to full screen"]
     | _ => [])

/-- The `RISE:fullscreen-plugin` command handler (`CommandIDs.riseFullScreen`):
pure DOM full-screen toggling on the tracked preview's iframe; it touches no
metadata. -/
def riseFullScreenExecute (trackedCurrent : Bool) (iframePresent : Bool)
    (inFullscreen : Bool) : List Event :=
  if trackedCurrent then
    if iframePresent then
      (if !inFullscreen then [Event.requestFullscreen] else [Event.exitFullscreen]) ++
      [Event.focusIframe]
    else []
  else []

/-- The `rise` metadata value stored on a (possibly missing) panel's model. -/
def riseRecordOf (p : Option NotebookPanel) : Option Json :=
  match p with
  | some panel =>
    match panel.model with
    | some m => m.getMetadata "rise"
    | none => none
  | none => none

theorem setKey_ne_nil (kvs : List (String × Json)) (k : String) (v : Json) :
    setKey kvs k v ≠ [] := by
  cases kvs with
  | nil => simp [setKey]
  | cons e rest =>
    by_cases h : e.1 = k <;> simp [setKey, h]

/-- C1, counterexample: executing `RISE:set-theme` with theme `"sky"` on a
notebook whose model has no prior `rise` record mutates the `rise` metadata,
yet the operation's trace contains no `context.save()` call — refuting the
claim that every theme-setting mutation is persisted via the host's save
mechanism. -/
theorem C1_counterexample :
    Event.setNotebookMetadata "rise" (Json.obj [("theme", Json.str "sky")]) ∈
      (riseSetThemeExecute (some (Json.str "sky")) (some ⟨some ⟨[]⟩, none⟩)).2 ∧
    Event.contextSave ∉
      (riseSetThemeExecute (some (Json.str "sky")) (some ⟨some ⟨[]⟩, none⟩)).2 := by
  decide

/-- C1 (amended): every mutation of the `rise` metadata performed by
`ThemePickerDialog.updateMetadata` is accompanied by a `context.save()` call
in the same operation, while the `RISE:set-theme` command handler never
invokes save (it instead shows a dialog asking the user to save). -/
theorem C1_theme_mutation_persistence :
    (∀ (t : String) (cur : Option NotebookPanel) (ifr : List String) (st : Bool),
      (∃ k v, Event.setNotebookMetadata k v ∈
          (ThemePickerDialog.updateMetadata t cur ifr st).2) →
      Event.contextSave ∈ (ThemePickerDialog.updateMetadata t cur ifr st).2) ∧
    (∀ (a : Option Json) (cur : Option NotebookPanel),
      Event.contextSave ∉ (riseSetThemeExecute a cur).2) := by
  constructor
  · intro t cur ifr st h
    match cur with
    | none => simp [ThemePickerDialog.updateMetadata] at h
    | some panel =>
      match hm : panel.model with
      | none => simp [ThemePickerDialog.updateMetadata, hm] at h
      | some m => simp [ThemePickerDialog.updateMetadata, hm]
  · intro a cur
    match cur with
    | none => simp [riseSetThemeExecute]
    | some panel =>
      cases ht : jsTruthy a with
      | false => simp [riseSetThemeExecute, ht]
      | true =>
        match hm : panel.model with
        | none => simp [riseSetThemeExecute, ht, hm]
        | some m =>
          match hf : classifyRiseAssign (m.getMetadata "rise") with
          | .throws => simp [riseSetThemeExecute, ht, hm, hf]
          | .intoArr xs => simp [riseSetThemeExecute, ht, hm, hf]
          | .intoObj kvs => simp [riseSetThemeExecute, ht, hm, hf]

/-- C1 witness: a concrete picker update that mutates the metadata does call
`context.save()`. -/
theorem C1_theme_mutation_persistence_witness :
    Event.contextSave ∈
      (ThemePickerDialog.updateMetadata "sky" (some ⟨some ⟨[]⟩, none⟩) [] false).2 :=
  C1_theme_mutation_persistence.1 "sky" (some ⟨some ⟨[]⟩, none⟩) [] false
    ⟨"rise", Json.obj [("theme", Json.str "sky")], by decide⟩

/-- C2: starting from an existing `rise` record `R`, setting theme `t` via
the `RISE:set-theme` command (with a non-empty `t`) or via
`ThemePickerDialog.updateMetadata` stores under the `rise` key a record whose
`theme` field is `t` and whose every other key keeps the value it had
in `R`. -/
theorem C2_set_theme_preserves_other_keys
    (R : List (String × Json)) (t : String) (panel : NotebookPanel)
    (m : NotebookModel) (hm : panel.model = some m)
    (hR : m.getMetadata "rise" = some (Json.obj R)) (ht : t ≠ "") :
    (∃ R', riseRecordOf (riseSetThemeExecute (some (Json.str t)) (some panel)).1 =
        some (Json.obj R') ∧
      getKey R' "theme" = some (Json.str t) ∧
      ∀ k, k ≠ "theme" → getKey R' k = getKey R k) ∧
    (∀ ifr st, ∃ R',
      riseRecordOf (ThemePickerDialog.updateMetadata t (some panel) ifr st).1 =
        some (Json.obj R') ∧
      getKey R' "theme" = some (Json.str t) ∧
      ∀ k, k ≠ "theme" → getKey R' k = getKey R k) := by
  have htr : jsTruthy (some (Json.str t)) = true := by
    simp [jsTruthy, Json.truthy, ht]
  have hR' : getKey m.metadata "rise" = some (Json.obj R) := hR
  constructor
  · refine ⟨setKey R "theme" (Json.str t), ?_, ?_, ?_⟩
    · simp [riseSetThemeExecute, htr, hm, hR', classifyRiseAssign, riseRecordOf,
        NotebookModel.setMetadata, NotebookModel.getMetadata]
    · exact getKey_setKey_same R "theme" (Json.str t)
    · intro k hk
      exact getKey_setKey_ne R "theme" k (Json.str t) hk
  · intro ifr st
    refine ⟨setKey R "theme" (Json.str t), ?_, ?_, ?_⟩
    · simp [ThemePickerDialog.updateMetadata, hm, hR', jsSpread, riseRecordOf,
        NotebookModel.setMetadata, NotebookModel.getMetadata]
    · exact getKey_setKey_same R "theme" (Json.str t)
    · intro k hk
      exact getKey_setKey_ne R "theme" k (Json.str t) hk

/-- C2 witness: a concrete record with an `autolaunch` flag keeps it when
the theme is set to `"sky"` by either operation. -/
theorem C2_set_theme_preserves_other_keys_witness :
    (∃ R', riseRecordOf (riseSetThemeExecute (some (Json.str "sky"))
        (some ⟨some ⟨[("rise", Json.obj [("autolaunch", Json.bool true)])]⟩, none⟩)).1 =
        some (Json.obj R') ∧
      getKey R' "theme" = some (Json.str "sky") ∧
      ∀ k, k ≠ "theme" → getKey R' k = getKey [("autolaunch", Json.bool true)] k) ∧
    (∀ ifr st, ∃ R',
      riseRecordOf (ThemePickerDialog.updateMetadata "sky"
        (some ⟨some ⟨[("rise", Json.obj [("autolaunch", Json.bool true)])]⟩, none⟩) ifr st).1 =
        some (Json.obj R') ∧
      getKey R' "theme" = some (Json.str "sky") ∧
      ∀ k, k ≠ "theme" → getKey R' k = getKey [("autolaunch", Json.bool true)] k) :=
  C2_set_theme_preserves_other_keys [("autolaunch", Json.bool true)] "sky"
    ⟨some ⟨[("rise", Json.obj [("autolaunch", Json.bool true)])]⟩, none⟩
    ⟨[("rise", Json.obj [("autolaunch", Json.bool true)])]⟩ rfl (by decide) (by decide)

/-- C4: when the notebook has no `rise` record yet, setting theme `t` by
either operation creates it, and the `rise` key afterwards holds exactly
`{ theme: t }`. -/
theorem C4_first_write_creates_record (t : String) (panel : NotebookPanel)
    (m : NotebookModel) (hm : panel.model = some m)
    (hR : m.getMetadata "rise" = none) (ht : t ≠ "") :
    riseRecordOf (riseSetThemeExecute (some (Json.str t)) (some panel)).1 =
      some (Json.obj [("theme", Json.str t)]) ∧
    ∀ ifr st, riseRecordOf (ThemePickerDialog.updateMetadata t (some panel) ifr st).1 =
      some (Json.obj [("theme", Json.str t)]) := by
  have htr : jsTruthy (some (Json.str t)) = true := by
    simp [jsTruthy, Json.truthy, ht]
  have hR' : getKey m.metadata "rise" = none := hR
  constructor
  · simp [riseSetThemeExecute, htr, hm, hR', classifyRiseAssign, riseRecordOf, setKey,
      NotebookModel.setMetadata, NotebookModel.getMetadata]
  · intro ifr st
    simp [ThemePickerDialog.updateMetadata, hm, hR', riseRecordOf, setKey,
      NotebookModel.setMetadata, NotebookModel.getMetadata]

/-- C4 witness: the first write on an empty notebook model with theme
`"league"` yields exactly `{ theme: "league" }`. -/
theorem C4_first_write_creates_record_witness :
    riseRecordOf (riseSetThemeExecute (some (Json.str "league"))
      (some ⟨some ⟨[]⟩, none⟩)).1 = some (Json.obj [("theme", Json.str "league")]) ∧
    ∀ ifr st, riseRecordOf (ThemePickerDialog.updateMetadata "league"
      (some ⟨some ⟨[]⟩, none⟩) ifr st).1 = some (Json.obj [("theme", Json.str "league")]) :=
  C4_first_write_creates_record "league" ⟨some ⟨[]⟩, none⟩ ⟨[]⟩ rfl (by decide) (by decide)

/-- Whether a JSON value is an object. -/
def Json.isObj : Json → Bool
  | .obj _ => true
  | _ => false

/-- C5, counterexample: with an array stored under `rise`, the
`RISE:set-theme` command performs a write whose stored value is the array —
not a JSON object — because the JS property assignment succeeds on arrays
and the handler stores the mutated array back under `rise`. -/
theorem C5_counterexample :
    Event.setNotebookMetadata "rise" (Json.arr [Json.num 1]) ∈
      (riseSetThemeExecute (some (Json.str "sky"))
        (some ⟨some ⟨[("rise", Json.arr [Json.num 1])]⟩, none⟩)).2 ∧
    (Json.arr [Json.num 1]).isObj = false := by
  decide

/-- C5 (amended): every value `ThemePickerDialog.updateMetadata` stores
under `rise` is a JSON object; `RISE:set-theme` stores a JSON object except
when the pre-existing `rise` value is an array, in which case the array
itself is stored.  The command accepts any non-empty string as the theme
value, not only the twelve themes listed in the picker. -/
theorem C5_rise_value_shape :
    (∀ (a : Option Json) (cur : Option NotebookPanel) (k : String) (v : Json),
      Event.setNotebookMetadata k v ∈ (riseSetThemeExecute a cur).2 →
      (∃ kvs, v = Json.obj kvs) ∨ (∃ xs, v = Json.arr xs)) ∧
    (∀ (panel : NotebookPanel) (m : NotebookModel) (xs : List Json) (a : Option Json),
      panel.model = some m → m.getMetadata "rise" = some (Json.arr xs) →
      jsTruthy a = true →
      Event.setNotebookMetadata "rise" (Json.arr xs) ∈
        (riseSetThemeExecute a (some panel)).2) ∧
    (∀ (t : String) (cur : Option NotebookPanel) (ifr : List String) (st : Bool)
        (k : String) (v : Json),
      Event.setNotebookMetadata k v ∈ (ThemePickerDialog.updateMetadata t cur ifr st).2 →
      ∃ kvs, v = Json.obj kvs) ∧
    (∀ t : String, t ≠ "" → ∀ (panel : NotebookPanel) (m : NotebookModel),
      panel.model = some m → m.getMetadata "rise" = none →
      Event.setNotebookMetadata "rise" (Json.obj [("theme", Json.str t)]) ∈
        (riseSetThemeExecute (some (Json.str t)) (some panel)).2) := by
  refine ⟨?_, ?_, ?_, ?_⟩
  · intro a cur k v hmem
    match cur with
    | none => simp [riseSetThemeExecute] at hmem
    | some panel =>
      cases ht : jsTruthy a with
      | false => simp [riseSetThemeExecute, ht] at hmem
      | true =>
        match hm : panel.model with
        | none => simp [riseSetThemeExecute, ht, hm] at hmem
        | some m =>
          match hf : classifyRiseAssign (m.getMetadata "rise") with
          | .throws => simp [riseSetThemeExecute, ht, hm, hf] at hmem
          | .intoArr xs =>
            simp [riseSetThemeExecute, ht, hm, hf] at hmem
            exact Or.inr ⟨_, hmem.2⟩
          | .intoObj kvs =>
            simp [riseSetThemeExecute, ht, hm, hf] at hmem
            exact Or.inl ⟨_, hmem.2⟩
  · intro panel m xs a hm hR ht
    have hR' : getKey m.metadata "rise" = some (Json.arr xs) := hR
    simp [riseSetThemeExecute, ht, hm, hR', classifyRiseAssign,
      NotebookModel.getMetadata]
  · intro t cur ifr st k v hmem
    match cur with
    | none => simp [ThemePickerDialog.updateMetadata] at hmem
    | some panel =>
      match hm : panel.model with
      | none => simp [ThemePickerDialog.updateMetadata, hm] at hmem
      | some m =>
        cases st <;>
          simp [ThemePickerDialog.updateMetadata, hm, refreshRisePreview,
            List.mem_filterMap] at hmem <;>
          exact ⟨_, hmem.2⟩
  · intro t ht panel m hm hR
    have hR' : getKey m.metadata "rise" = none := hR
    have htr : jsTruthy (some (Json.str t)) = true := by
      simp [jsTruthy, Json.truthy, ht]
    simp [riseSetThemeExecute, htr, hm, hR', classifyRiseAssign, setKey,
      NotebookModel.getMetadata]

/-- C5 witness: the non-picker theme name `"my-custom-theme"` is accepted
and stored as a JSON object. -/
theorem C5_rise_value_shape_witness :
    Event.setNotebookMetadata "rise" (Json.obj [("theme", Json.str "my-custom-theme")]) ∈
      (riseSetThemeExecute (some (Json.str "my-custom-theme"))
        (some ⟨some ⟨[]⟩, none⟩)).2 :=
  C5_rise_value_shape.2.2.2 "my-custom-theme" (by decide) ⟨some ⟨[]⟩, none⟩ ⟨[]⟩ rfl (by decide)

theorem pipeline_sublist (g s c : Event) (status refresh tail : List Event) :
    List.Sublist (g :: s :: c :: refresh) (g :: s :: (status ++ c :: (refresh ++ tail))) :=
  List.Sublist.cons₂ _ (List.Sublist.cons₂ _
    ((List.Sublist.cons₂ _ (List.sublist_append_left refresh tail)).trans
      (List.sublist_append_right status _)))

/-- C6: every theme update the picker dialog performs — any current notebook
with a model, whatever the pre-existing `rise` value (an object, a non-object,
or none at all on a first write) — follows the pipeline read-metadata,
write-metadata, save, refresh-DOM in this order: those steps, with the
refresh reassigning the `src` of every iframe whose `src` contains
`"reveal"`, form a sublist of the operation's event trace. -/
theorem C6_update_pipeline_order (t : String) (panel : NotebookPanel)
    (m : NotebookModel) (hm : panel.model = some m)
    (ifr : List String) (st : Bool) :
    ∃ V, List.Sublist
      ([Event.getNotebookMetadata "rise", Event.setNotebookMetadata "rise" V,
        Event.contextSave] ++ refreshRisePreview ifr)
      (ThemePickerDialog.updateMetadata t (some panel) ifr st).2 := by
  match hs : m.getMetadata "rise" with
  | some w =>
    refine ⟨Json.obj (setKey (jsSpread w) "theme" (Json.str t)), ?_⟩
    have htrace : (ThemePickerDialog.updateMetadata t (some panel) ifr st).2 =
        [Event.getNotebookMetadata "rise",
         Event.setNotebookMetadata "rise"
           (Json.obj (setKey (jsSpread w) "theme" (Json.str t)))] ++
        (if st then [Event.setStatusText] else []) ++
        [Event.contextSave] ++ refreshRisePreview ifr ++ [Event.rerenderWidget] := by
      simp [ThemePickerDialog.updateMetadata, hm, hs]
    rw [htrace]
    simp only [List.cons_append, List.nil_append, List.append_assoc]
    exact pipeline_sublist _ _ _ _ _ _
  | none =>
    refine ⟨Json.obj (setKey [] "theme" (Json.str t)), ?_⟩
    have htrace : (ThemePickerDialog.updateMetadata t (some panel) ifr st).2 =
        [Event.getNotebookMetadata "rise",
         Event.setNotebookMetadata "rise"
           (Json.obj (setKey [] "theme" (Json.str t)))] ++
        (if st then [Event.setStatusText] else []) ++
        [Event.contextSave] ++ refreshRisePreview ifr ++ [Event.rerenderWidget] := by
      simp [ThemePickerDialog.updateMetadata, hm, hs]
    rw [htrace]
    simp only [List.cons_append, List.nil_append, List.append_assoc]
    exact pipeline_sublist _ _ _ _ _ _

/-- C6 witness: the pipeline order at a concrete first-write update with one
reveal iframe and a status element present. -/
theorem C6_update_pipeline_order_witness :
    ∃ V, List.Sublist
      ([Event.getNotebookMetadata "rise", Event.setNotebookMetadata "rise" V,
        Event.contextSave] ++ refreshRisePreview ["http://h/reveal/x"])
      (ThemePickerDialog.updateMetadata "moon"
        (some ⟨some ⟨[]⟩, none⟩) ["http://h/reveal/x"] true).2 :=
  C6_update_pipeline_order "moon" ⟨some ⟨[]⟩, none⟩ ⟨[]⟩ rfl
    ["http://h/reveal/x"] true

/-- C10: with no current notebook widget, no model on the current widget, or
(for `RISE:set-theme`) no non-empty `theme` string argument, the theme
operations leave the notebook state unchanged, write no metadata and invoke
no save; the picker command without a current notebook does nothing at all,
and by itself never writes metadata or saves. -/
theorem C10_guard_noop :
    (∀ t ifr st, ThemePickerDialog.updateMetadata t none ifr st = (none, [])) ∧
    (∀ t panel ifr st, panel.model = none →
      ThemePickerDialog.updateMetadata t (some panel) ifr st = (some panel, [])) ∧
    (∀ (a : Option Json) (cur : Option NotebookPanel),
      (a = none ∨ a = some (Json.str "")) →
      riseSetThemeExecute a cur = (cur, [Event.addBodyClass "rise-enabled"])) ∧
    (∀ a, riseSetThemeExecute a none = (none, [Event.addBodyClass "rise-enabled"])) ∧
    (∀ a panel, panel.model = none →
      riseSetThemeExecute a (some panel) = (some panel, [Event.addBodyClass "rise-enabled"])) ∧
    (openThemePickerExecute none = []) ∧
    (∀ cur k v, Event.setNotebookMetadata k v ∉ openThemePickerExecute cur ∧
      Event.contextSave ∉ openThemePickerExecute cur) := by
  refine ⟨?_, ?_, ?_, ?_, ?_, rfl, ?_⟩
  · intro t ifr st
    simp [ThemePickerDialog.updateMetadata]
  · intro t panel ifr st hm
    simp [ThemePickerDialog.updateMetadata, hm]
  · intro a cur ha
    have ht : jsTruthy a = false := by
      rcases ha with h | h <;> subst h <;> simp [jsTruthy, Json.truthy]
    match cur with
    | none => simp [riseSetThemeExecute]
    | some panel => simp [riseSetThemeExecute, ht]
  · intro a
    simp [riseSetThemeExecute]
  · intro a panel hm
    cases ht : jsTruthy a <;> simp [riseSetThemeExecute, ht, hm]
  · intro cur k v
    match cur with
    | none => simp [openThemePickerExecute]
    | some panel => simp [openThemePickerExecute]

/-- C10 witness: invoking `RISE:set-theme` with an empty theme string on a
concrete notebook leaves the state unchanged with only the body-class side
effect. -/
theorem C10_guard_noop_witness :
    riseSetThemeExecute (some (Json.str ""))
      (some ⟨some ⟨[("rise", Json.obj [("theme", Json.str "black")])]⟩, none⟩) =
    (some ⟨some ⟨[("rise", Json.obj [("theme", Json.str "black")])]⟩, none⟩,
     [Event.addBodyClass "rise-enabled"]) :=
  C10_guard_noop.2.2.1 (some (Json.str ""))
    (some ⟨some ⟨[("rise", Json.obj [("theme", Json.str "black")])]⟩, none⟩)
    (Or.inr rfl)

@[simp] theorem CellModel.getMetadata_setMetadata (c : CellModel) (k : String) (v : Json) :
    (c.setMetadata k v).getMetadata k = some v := by
  simp [CellModel.setMetadata, CellModel.getMetadata]

@[simp] theorem CellModel.getMetadata_deleteMetadata (c : CellModel) (k : String) :
    (c.deleteMetadata k).getMetadata k = none := by
  simp [CellModel.deleteMetadata, CellModel.getMetadata]

theorem slideTypeOf_setMetadata (c : CellModel) (kvs : List (String × Json)) :
    slideTypeOf (c.setMetadata "slideshow" (Json.obj kvs)) = getKey kvs "slide_type" := by
  simp [slideTypeOf]

theorem slideTypeOf_deleteMetadata (c : CellModel) :
    slideTypeOf (c.deleteMetadata "slideshow") = none := by
  simp [slideTypeOf]

theorem slideBase_setMetadata (c : CellModel) (kvs : List (String × Json)) :
    slideBase (c.setMetadata "slideshow" (Json.obj kvs)) = kvs := by
  simp [slideBase, jsSpread]

theorem slideBase_deleteMetadata (c : CellModel) :
    slideBase (c.deleteMetadata "slideshow") = [] := by
  simp [slideBase]

theorem jsTruthy_some_getD (a : Option Json) (h : jsTruthy a = true) :
    a = some (a.getD Json.null) := by
  match a with
  | none => simp [jsTruthy] at h
  | some v => rfl

/-- The invariant maintained on a cell's `slideshow` metadata: absent, or a
non-empty JSON object. -/
def slideshowInv (cell : CellModel) : Prop :=
  cell.getMetadata "slideshow" = none ∨
  ∃ kvs, cell.getMetadata "slideshow" = some (Json.obj kvs) ∧ kvs ≠ []

/-- C8: executing `RISE:set-slide-type` keeps the active cell's `slideshow`
metadata absent or a non-empty JSON object, and no execution ever writes the
empty object under `slideshow`: when unsetting `slide_type` empties the
record, the handler deletes the `slideshow` key instead. -/
theorem C8_slideshow_never_empty (a : Option Json) (panel : NotebookPanel)
    (cell : CellModel) (hc : panel.activeCell = some cell) (hinv : slideshowInv cell) :
    (∃ p' c', (riseSetSlideTypeExecute a (some panel)).1 = some p' ∧
      p'.activeCell = some c' ∧ slideshowInv c') ∧
    (∀ (b : Option Json) (q : Option NotebookPanel),
      Event.setCellMetadata "slideshow" (Json.obj []) ∉ (riseSetSlideTypeExecute b q).2) := by
  constructor
  · by_cases heq : a = slideTypeOf cell
    · exact ⟨panel, cell, by simp [riseSetSlideTypeExecute, hc, heq], hc, hinv⟩
    · by_cases hlen : 0 < (newSlideValue a cell).length
      · refine ⟨⟨panel.model, some (cell.setMetadata "slideshow" (Json.obj (newSlideValue a cell)))⟩,
          cell.setMetadata "slideshow" (Json.obj (newSlideValue a cell)), ?_, rfl, ?_⟩
        · simp [riseSetSlideTypeExecute, hc, heq, hlen]
        · right
          exact ⟨newSlideValue a cell, CellModel.getMetadata_setMetadata cell _ _,
            List.ne_nil_of_length_pos hlen⟩
      · refine ⟨⟨panel.model, some (cell.deleteMetadata "slideshow")⟩,
          cell.deleteMetadata "slideshow", ?_, rfl, ?_⟩
        · simp [riseSetSlideTypeExecute, hc, heq, hlen]
        · left
          exact CellModel.getMetadata_deleteMetadata cell _
  · intro b q
    match q with
    | none => simp [riseSetSlideTypeExecute]
    | some panel2 =>
      match hc2 : panel2.activeCell with
      | none => simp [riseSetSlideTypeExecute, hc2]
      | some cell2 =>
        by_cases heq2 : b = slideTypeOf cell2
        · simp [riseSetSlideTypeExecute, hc2, heq2]
        · by_cases hlen2 : 0 < (newSlideValue b cell2).length
          · simp [riseSetSlideTypeExecute, hc2, heq2, hlen2]
            intro h
            rw [h] at hlen2
            simp at hlen2
          · simp [riseSetSlideTypeExecute, hc2, heq2, hlen2]

/-- C8 witness: unsetting the slide type of a cell whose `slideshow` record
holds only `slide_type` deletes the key, preserving the invariant. -/
theorem C8_slideshow_never_empty_witness :
    ∃ p' c', (riseSetSlideTypeExecute none
        (some ⟨none, some ⟨[("slideshow", Json.obj [("slide_type", Json.str "slide")])]⟩⟩)).1 =
          some p' ∧
      p'.activeCell = some c' ∧ slideshowInv c' :=
  (C8_slideshow_never_empty none
    ⟨none, some ⟨[("slideshow", Json.obj [("slide_type", Json.str "slide")])]⟩⟩
    ⟨[("slideshow", Json.obj [("slide_type", Json.str "slide")])]⟩ rfl
    (Or.inr ⟨[("slide_type", Json.str "slide")], by decide, by decide⟩)).1

theorem newSlideValue_truthy_ne_nil (a : Option Json) (cell : CellModel)
    (ht : jsTruthy a = true) : newSlideValue a cell ≠ [] := by
  simp [newSlideValue, ht]
  exact setKey_ne_nil _ _ _

/-- C9: `RISE:set-slide-type` with an argument equal to the active cell's
current `slide_type` performs no metadata write (its trace is only the
metadata read), and executing the command twice in a row with the same
argument leaves the same notebook state as executing it once. -/
theorem C9_set_slide_type_idempotent :
    (∀ (a : Option Json) (cur : Option NotebookPanel),
      (riseSetSlideTypeExecute a (riseSetSlideTypeExecute a cur).1).1 =
        (riseSetSlideTypeExecute a cur).1) ∧
    (∀ (a : Option Json) (panel : NotebookPanel) (cell : CellModel),
      panel.activeCell = some cell → a = slideTypeOf cell →
      riseSetSlideTypeExecute a (some panel) =
        (some panel, [Event.getCellMetadata "slideshow"])) := by
  have hsecond : ∀ (a : Option Json) (panel : NotebookPanel) (cell : CellModel),
      panel.activeCell = some cell → a = slideTypeOf cell →
      riseSetSlideTypeExecute a (some panel) =
        (some panel, [Event.getCellMetadata "slideshow"]) := by
    intro a panel cell hc heq
    simp [riseSetSlideTypeExecute, hc, heq]
  refine ⟨?_, hsecond⟩
  intro a cur
  match cur with
  | none => simp [riseSetSlideTypeExecute]
  | some panel =>
    match hc : panel.activeCell with
    | none => simp [riseSetSlideTypeExecute, hc]
    | some cell =>
      by_cases heq : a = slideTypeOf cell
      · simp [riseSetSlideTypeExecute, hc, heq]
      · by_cases hlen : 0 < (newSlideValue a cell).length
        · -- first run stores `newSlideValue a cell` under `slideshow`
          have hres : (riseSetSlideTypeExecute a (some panel)).1 =
              some ⟨panel.model,
                some (cell.setMetadata "slideshow" (Json.obj (newSlideValue a cell)))⟩ := by
            simp [riseSetSlideTypeExecute, hc, heq, hlen]
          rw [hres]
          cases ht : jsTruthy a with
          | true =>
            -- after the write the stored slide_type equals the argument
            have hst : slideTypeOf
                (cell.setMetadata "slideshow" (Json.obj (newSlideValue a cell))) = a := by
              rw [slideTypeOf_setMetadata]
              rw [show newSlideValue a cell =
                  setKey (slideBase cell) "slide_type" (a.getD Json.null) from by
                simp [newSlideValue, ht]]
              rw [getKey_setKey_same]
              exact (jsTruthy_some_getD a ht).symm
            simp [riseSetSlideTypeExecute, hst]
          | false =>
            -- the argument was falsy: slide_type was erased by the write
            have hst : slideTypeOf
                (cell.setMetadata "slideshow" (Json.obj (newSlideValue a cell))) = none := by
              rw [slideTypeOf_setMetadata]
              rw [show newSlideValue a cell = eraseKey (slideBase cell) "slide_type" from by
                simp [newSlideValue, ht]]
              exact getKey_eraseKey_same _ _
            match a with
            | none => simp [riseSetSlideTypeExecute, hst]
            | some v =>
              -- second run rewrites the identical record
              have hne2 : ¬((some v : Option Json) = slideTypeOf
                  (cell.setMetadata "slideshow" (Json.obj (newSlideValue (some v) cell)))) := by
                rw [hst]
                simp
              have hb : newSlideValue (some v)
                  (cell.setMetadata "slideshow" (Json.obj (newSlideValue (some v) cell))) =
                  newSlideValue (some v) cell := by
                simp only [newSlideValue, ht, if_neg (by simp : ¬(false = true)),
                  slideBase_setMetadata]
                exact eraseKey_eraseKey _ _
              have hlen1 : 0 < (newSlideValue (some v)
                  (cell.setMetadata "slideshow" (Json.obj (newSlideValue (some v) cell)))).length := by
                rw [hb]
                exact hlen
              have hcell : (cell.setMetadata "slideshow"
                    (Json.obj (newSlideValue (some v) cell))).setMetadata "slideshow"
                    (Json.obj (newSlideValue (some v)
                      (cell.setMetadata "slideshow" (Json.obj (newSlideValue (some v) cell))))) =
                  cell.setMetadata "slideshow" (Json.obj (newSlideValue (some v) cell)) := by
                rw [hb]
                simp [CellModel.setMetadata, setKey_setKey_same]
              simp [riseSetSlideTypeExecute, hne2, hlen1, hcell]
        · -- first run deleted the `slideshow` record
          have hres : (riseSetSlideTypeExecute a (some panel)).1 =
              some ⟨panel.model, some (cell.deleteMetadata "slideshow")⟩ := by
            simp [riseSetSlideTypeExecute, hc, heq, hlen]
          rw [hres]
          have ht : jsTruthy a = false := by
            cases ht : jsTruthy a with
            | false => rfl
            | true =>
              exact absurd (List.length_pos.mpr (newSlideValue_truthy_ne_nil a cell ht)) hlen
          have hst : slideTypeOf (cell.deleteMetadata "slideshow") = none :=
            slideTypeOf_deleteMetadata cell
          match a with
          | none => simp [riseSetSlideTypeExecute, hst]
          | some v =>
            have hne2 : ¬((some v : Option Json) =
                slideTypeOf (cell.deleteMetadata "slideshow")) := by
              rw [hst]
              simp
            have hb : newSlideValue (some v) (cell.deleteMetadata "slideshow") = [] := by
              simp [newSlideValue, ht, slideBase_deleteMetadata, eraseKey]
            have hlen1 : ¬(0 < (newSlideValue (some v) (cell.deleteMetadata "slideshow")).length) := by
              rw [hb]
              simp
            have hcell : (cell.deleteMetadata "slideshow").deleteMetadata "slideshow" =
                cell.deleteMetadata "slideshow" := by
              simp [CellModel.deleteMetadata, eraseKey_eraseKey]
            simp [riseSetSlideTypeExecute, hne2, hlen1, hcell]

/-- C9 witness: toggling an already-`slide` cell performs only the metadata
read and changes nothing. -/
theorem C9_set_slide_type_idempotent_witness :
    riseSetSlideTypeExecute (some (Json.str "slide"))
      (some ⟨none, some ⟨[("slideshow", Json.obj [("slide_type", Json.str "slide")])]⟩⟩) =
    (some ⟨none, some ⟨[("slideshow", Json.obj [("slide_type", Json.str "slide")])]⟩⟩,
     [Event.getCellMetadata "slideshow"]) :=
  C9_set_slide_type_idempotent.2 (some (Json.str "slide"))
    ⟨none, some ⟨[("slideshow", Json.obj [("slide_type", Json.str "slide")])]⟩⟩
    ⟨[("slideshow", Json.obj [("slide_type", Json.str "slide")])]⟩ rfl (by decide)

/-- C3, counterexample: the `RISE:set-slide-type` command handler writes
`slideshow` metadata on the active cell, so the notebook-level `rise` record
is not the only persistent metadata the extension writes. -/
theorem C3_counterexample :
    Event.setCellMetadata "slideshow" (Json.obj [("slide_type", Json.str "slide")]) ∈
      (riseSetSlideTypeExecute (some (Json.str "slide")) (some ⟨none, some ⟨[]⟩⟩)).2 := by
  decide

/-- C3 (amended): the handlers write notebook-document metadata only under
the `rise` key, and the only cell-level metadata writes are the `slideshow`
writes and deletions performed by `RISE:set-slide-type`; no other handler
writes notebook or cell metadata at all. -/
theorem C3_metadata_write_surface :
    (∀ (a : Option Json) (cur : Option NotebookPanel) (k : String) (v : Json),
      (Event.setNotebookMetadata k v ∈ (riseSetThemeExecute a cur).2 → k = "rise") ∧
      Event.setCellMetadata k v ∉ (riseSetThemeExecute a cur).2 ∧
      Event.deleteCellMetadata k ∉ (riseSetThemeExecute a cur).2) ∧
    (∀ (t : String) (cur : Option NotebookPanel) (ifr : List String) (st : Bool)
        (k : String) (v : Json),
      (Event.setNotebookMetadata k v ∈ (ThemePickerDialog.updateMetadata t cur ifr st).2 →
        k = "rise") ∧
      Event.setCellMetadata k v ∉ (ThemePickerDialog.updateMetadata t cur ifr st).2 ∧
      Event.deleteCellMetadata k ∉ (ThemePickerDialog.updateMetadata t cur ifr st).2) ∧
    (∀ (a : Option Json) (cur : Option NotebookPanel) (k : String) (v : Json),
      (Event.setCellMetadata k v ∈ (riseSetSlideTypeExecute a cur).2 → k = "slideshow") ∧
      (Event.deleteCellMetadata k ∈ (riseSetSlideTypeExecute a cur).2 → k = "slideshow") ∧
      Event.setNotebookMetadata k v ∉ (riseSetSlideTypeExecute a cur).2) ∧
    (∀ (cur : Option NotebookPanel) (k : String) (v : Json),
      Event.setNotebookMetadata k v ∉ openThemePickerExecute cur ∧
      Event.setCellMetadata k v ∉ openThemePickerExecute cur ∧
      Event.deleteCellMetadata k ∉ openThemePickerExecute cur) ∧
    (∀ (cur : Option NotebookPanel) (k : String) (v : Json),
      Event.setNotebookMetadata k v ∉ openRiseExecute cur ∧
      Event.setCellMetadata k v ∉ openRiseExecute cur ∧
      Event.deleteCellMetadata k ∉ openRiseExecute cur) ∧
    (∀ (cur : Option NotebookPanel) (fa : Option Json) (k : String) (v : Json),
      Event.setNotebookMetadata k v ∉ risePreviewExecute cur fa ∧
      Event.setCellMetadata k v ∉ risePreviewExecute cur fa ∧
      Event.deleteCellMetadata k ∉ risePreviewExecute cur fa) ∧
    (∀ (b1 b2 b3 : Bool) (k : String) (v : Json),
      Event.setNotebookMetadata k v ∉ riseFullScreenExecute b1 b2 b3 ∧
      Event.setCellMetadata k v ∉ riseFullScreenExecute b1 b2 b3 ∧
      Event.deleteCellMetadata k ∉ riseFullScreenExecute b1 b2 b3) ∧
    (∀ (n : String) (mo : Option NotebookModel) (se : Option Json) (k : String) (v : Json),
      Event.setNotebookMetadata k v ∉ widgetAddedHandler n mo se ∧
      Event.setCellMetadata k v ∉ widgetAddedHandler n mo se ∧
      Event.deleteCellMetadata k ∉ widgetAddedHandler n mo se) := by
  refine ⟨?_, ?_, ?_, ?_, ?_, ?_, ?_, ?_⟩
  · intro a cur k v
    match cur with
    | none => simp [riseSetThemeExecute]
    | some panel =>
      cases ht : jsTruthy a with
      | false => simp [riseSetThemeExecute, ht]
      | true =>
        match hm : panel.model with
        | none => simp [riseSetThemeExecute, ht, hm]
        | some m =>
          match hf : classifyRiseAssign (m.getMetadata "rise") with
          | .throws => simp [riseSetThemeExecute, ht, hm, hf]
          | .intoArr xs =>
            simp [riseSetThemeExecute, ht, hm, hf]
            exact fun h _ => h
          | .intoObj kvs =>
            simp [riseSetThemeExecute, ht, hm, hf]
            exact fun h _ => h
  · intro t cur ifr st k v
    match cur with
    | none => simp [ThemePickerDialog.updateMetadata]
    | some panel =>
      match hm : panel.model with
      | none => simp [ThemePickerDialog.updateMetadata, hm]
      | some m =>
        cases st <;>
          simp [ThemePickerDialog.updateMetadata, hm, refreshRisePreview,
            List.mem_filterMap] <;>
          exact fun h _ => h
  · intro a cur k v
    match cur with
    | none => simp [riseSetSlideTypeExecute]
    | some panel =>
      match hc : panel.activeCell with
      | none => simp [riseSetSlideTypeExecute, hc]
      | some cell =>
        by_cases heq : a = slideTypeOf cell
        · simp [riseSetSlideTypeExecute, hc, heq]
        · by_cases hlen : 0 < (newSlideValue a cell).length
          · simp [riseSetSlideTypeExecute, hc, heq, hlen]
            exact fun h _ => h
          · simp [riseSetSlideTypeExecute, hc, heq, hlen]
  · intro cur k v
    match cur with
    | none => simp [openThemePickerExecute]
    | some panel => simp [openThemePickerExecute]
  · intro cur k v
    match cur with
    | none => simp [openRiseExecute]
    | some panel => simp [openRiseExecute]
  · intro cur fa k v
    match cur with
    | none => simp [risePreviewExecute]
    | some panel =>
      match fa with
      | none => simp [risePreviewExecute]
      | some (.bool true) => simp [risePreviewExecute]
      | some (.bool false) => simp [risePreviewExecute]
      | some .null => simp [risePreviewExecute]
      | some (.num n) => simp [risePreviewExecute]
      | some (.str s) => simp [risePreviewExecute]
      | some (.arr xs) => simp [risePreviewExecute]
      | some (.obj kvs) => simp [risePreviewExecute]
  · intro b1 b2 b3 k v
    cases b1 <;> cases b2 <;> cases b3 <;> simp [riseFullScreenExecute]
  · intro n mo se k v
    by_cases hn : n = "Rise"
    · simp [widgetAddedHandler, hn]
    · cases hl : shouldAutolaunch mo se <;> simp [widgetAddedHandler, hn, hl]

/-- C7: the `autolaunch` flag is read as a boolean with a missing model,
record or field treated as `false`; outside the stand-alone `Rise`
application, the `widgetAdded` handler executes `RISE:preview` with
`fullscreen: true` exactly when the metadata flag or the settings registry's
`autolaunch` value is true. -/
theorem C7_autolaunch_decision (appName : String) (ha : appName ≠ "Rise")
    (model : Option NotebookModel) (b1 : Bool) (settings : Option Bool)
    (h1 : autolaunchFromMetadata model = Json.bool b1) :
    (Event.execCommand "RISE:preview" [("fullscreen", Json.bool true)] ∈
        widgetAddedHandler appName model (settings.map Json.bool) ↔
      (b1 = true ∨ settings.getD false = true)) ∧
    autolaunchFromMetadata none = Json.bool false ∧
    (∀ m : NotebookModel, m.getMetadata "rise" = none →
      autolaunchFromMetadata (some m) = Json.bool false) ∧
    (∀ (m : NotebookModel) (kvs : List (String × Json)),
      m.getMetadata "rise" = some (Json.obj kvs) → getKey kvs "autolaunch" = none →
      autolaunchFromMetadata (some m) = Json.bool false) := by
  refine ⟨?_, rfl, ?_, ?_⟩
  · have hla : shouldAutolaunch model (settings.map Json.bool) =
        (b1 || settings.getD false) := by
      match settings with
      | none =>
        simp [shouldAutolaunch, h1, Json.truthy]
      | some b2 =>
        cases b1 <;> cases b2 <;>
          simp [shouldAutolaunch, h1, Json.toNumber] <;> decide
    cases hb : (b1 || settings.getD false) with
    | false =>
      rw [hb] at hla
      simp [widgetAddedHandler, ha, hla]
      rcases Bool.or_eq_false_iff.mp hb with ⟨hb1, hb2⟩
      simp [hb1, hb2]
    | true =>
      rw [hb] at hla
      simp [widgetAddedHandler, ha, hla]
      exact Bool.or_eq_true_iff.mp hb
  · intro m h
    simp [autolaunchFromMetadata, h]
  · intro m kvs h h2
    simp [autolaunchFromMetadata, h, h2]

/-- C7 witness: with metadata `autolaunch: true` and no loaded settings, a
notebook added in JupyterLab triggers the full-screen preview. -/
theorem C7_autolaunch_decision_witness :
    (Event.execCommand "RISE:preview" [("fullscreen", Json.bool true)] ∈
        widgetAddedHandler "JupyterLab"
          (some ⟨[("rise", Json.obj [("autolaunch", Json.bool true)])]⟩)
          ((none : Option Bool).map Json.bool) ↔
      (true = true ∨ (none : Option Bool).getD false = true)) ∧
    autolaunchFromMetadata none = Json.bool false ∧
    (∀ m : NotebookModel, m.getMetadata "rise" = none →
      autolaunchFromMetadata (some m) = Json.bool false) ∧
    (∀ (m : NotebookModel) (kvs : List (String × Json)),
      m.getMetadata "rise" = some (Json.obj kvs) → getKey kvs "autolaunch" = none →
      autolaunchFromMetadata (some m) = Json.bool false) :=
  C7_autolaunch_decision "JupyterLab" (by decide)
    (some ⟨[("rise", Json.obj [("autolaunch", Json.bool true)])]⟩) true none (by decide)

/-- C3 witness: a concrete theme write goes to the `rise` key and is not a
cell write. -/
theorem C3_metadata_write_surface_witness :
    ("rise" : String) = "rise" ∧
    Event.setCellMetadata "slideshow" (Json.obj []) ∉
      (riseSetThemeExecute (some (Json.str "sky")) (some ⟨some ⟨[]⟩, none⟩)).2 :=
  ⟨(C3_metadata_write_surface.1 (some (Json.str "sky")) (some ⟨some ⟨[]⟩, none⟩) "rise"
      (Json.obj [("theme", Json.str "sky")])).1 (by decide),
   (C3_metadata_write_surface.1 (some (Json.str "sky")) (some ⟨some ⟨[]⟩, none⟩)
      "slideshow" (Json.obj [])).2.1⟩
